import Mathlib

/-!
Verification of the wiz-lights-rs client library core: the retrying command
transport (`src/light.rs`), the push-notification listener (`src/push.rs`)
and the discovery scanner (`src/discovery.rs`), shallowly embedded in Lean.

Network I/O is modelled by oracles: `send_udp` outcomes become a function
from attempt index to an `Except`, inbound datagrams become explicit data,
and JSON parsing of a received string is a parameter `parse`.
-/

namespace Wiz

/-- A JSON value, mirroring `serde_json::Value`.  Objects keep their fields
as an ordered association list; `serde_json` maps have unique keys, and
`get` returns the first binding. -/
inductive Json where
  | null
  | bool (b : Bool)
  | num (n : Int)
  | str (s : String)
  | arr (xs : List Json)
  | obj (fields : List (String × Json))

/-- Rust `Value::get(key)` on an object, `None` otherwise. -/
def Json.get : Json → String → Option Json
  | .obj fields, key => fields.lookup key
  | _, _ => none

/-- Rust `Value::as_str`. -/
def Json.asStr : Json → Option String
  | .str s => some s
  | _ => none

/-- The error taxonomy of `src/errors.rs` (the variants the core uses;
payloads that carry foreign error objects are reduced to their tags, the
`Socket` action string is kept). -/
inductive Error where
  | JsonDump
  | JsonLoad
  | Socket (action : String)
  | Utf8Decode
  | NoAttribute
deriving DecidableEq

/-! ## Retrying command transport (`Light::send_command`, src/light.rs:453-484) -/

/-- Constant `Light::MAX_RETRIES`. -/
def MAX_RETRIES : Nat := 3

/-- Constant `Light::RETRY_DELAYS_MS`. -/
def RETRY_DELAYS_MS : List Nat := [750, 1500, 3000]

/-- The observable outcome of one `send_command` call: how many attempts ran,
the backoff delays slept between attempts (in order), and the returned value. -/
structure SendTrace where
  attemptsRun : Nat
  delays : List Nat
  result : Except Error Json

/-- The body of the `for attempt in 0..=MAX_RETRIES` loop of
`Light::send_command`.  `oracle i` is the outcome of `send_udp` on attempt
`i`; `remaining` is the number of loop iterations left
(`MAX_RETRIES + 1 - attempt`); `lastError` mirrors the `last_error`
variable; `delays` accumulates the sleeps performed so far.  When the loop
exhausts its iterations the source returns
`Err(last_error.unwrap_or(Error::NoAttribute))`. -/
def sendGo (oracle : Nat → Except Error Json) :
    Nat → Nat → Option Error → List Nat → SendTrace
  | attempt, 0, lastError, delays =>
      ⟨attempt, delays, .error (lastError.getD Error.NoAttribute)⟩
  | attempt, remaining + 1, lastError, delays =>
      match oracle attempt with
      | .ok response => ⟨attempt + 1, delays, .ok response⟩
      | .error e =>
          if attempt < MAX_RETRIES then
            let delayIdx := min attempt (RETRY_DELAYS_MS.length - 1)
            sendGo oracle (attempt + 1) remaining (some e)
              (delays ++ [RETRY_DELAYS_MS.getD delayIdx 0])
          else
            sendGo oracle (attempt + 1) remaining (some e) delays

/-- Function `Light::send_command`, as a function of the per-attempt `send_udp`
outcomes.  The JSON encoding of the command (which precedes the loop and
returns early on failure without any attempt) is taken as already
successful; all claims below concern the retry loop itself. -/
def send_command (oracle : Nat → Except Error Json) : SendTrace :=
  sendGo oracle 0 (MAX_RETRIES + 1) none []

/-- An oracle on which every attempt fails with a receive error. -/
def allFailOracle : Nat → Except Error Json :=
  fun _ => .error (.Socket "receive")

/-- An oracle failing on attempts 0 and 1 and succeeding on attempt 2. -/
def thirdTrySucceedsOracle : Nat → Except Error Json :=
  fun i => if i < 2 then .error (.Socket "receive") else .ok (.obj [("result", .bool true)])

/-- C1: when every attempt fails, `send_command` runs exactly 4 attempts and
sleeps exactly the three backoff delays 750ms, 1500ms, 3000ms in that
order between consecutive attempts. -/
theorem send_command_exhaustion_four_attempts_and_delays
    (oracle : Nat → Except Error Json) (e0 e1 e2 e3 : Error)
    (h0 : oracle 0 = .error e0) (h1 : oracle 1 = .error e1)
    (h2 : oracle 2 = .error e2) (h3 : oracle 3 = .error e3) :
    (send_command oracle).attemptsRun = 4 ∧
    (send_command oracle).delays = [750, 1500, 3000] := by
  simp [send_command, sendGo, h0, h1, h2, h3, MAX_RETRIES, RETRY_DELAYS_MS]

theorem send_command_exhaustion_four_attempts_and_delays_witness :
    (send_command allFailOracle).attemptsRun = 4 ∧
    (send_command allFailOracle).delays = [750, 1500, 3000] :=
  send_command_exhaustion_four_attempts_and_delays allFailOracle _ _ _ _ rfl rfl rfl rfl

/-- C3: when every attempt fails, `send_command` returns exactly the error
recorded on the last (fourth) attempt: a single terminal error. -/
theorem send_command_exhaustion_returns_last_error
    (oracle : Nat → Except Error Json) (e0 e1 e2 e3 : Error)
    (h0 : oracle 0 = .error e0) (h1 : oracle 1 = .error e1)
    (h2 : oracle 2 = .error e2) (h3 : oracle 3 = .error e3) :
    (send_command oracle).result = .error e3 := by
  simp [send_command, sendGo, h0, h1, h2, h3, MAX_RETRIES, RETRY_DELAYS_MS]

theorem send_command_exhaustion_returns_last_error_witness :
    (send_command allFailOracle).result = .error (.Socket "receive") :=
  send_command_exhaustion_returns_last_error allFailOracle _ _ _ _ rfl rfl rfl rfl

/-- C4: when attempts 1 and 2 fail and attempt 3 succeeds with value `v`,
`send_command` returns `Ok v` and exactly the two backoff delays 750ms then
1500ms elapsed before that attempt. -/
theorem send_command_third_attempt_success
    (oracle : Nat → Except Error Json) (e0 e1 : Error) (v : Json)
    (h0 : oracle 0 = .error e0) (h1 : oracle 1 = .error e1)
    (h2 : oracle 2 = .ok v) :
    (send_command oracle).result = .ok v ∧
    (send_command oracle).delays = [750, 1500] := by
  simp [send_command, sendGo, h0, h1, h2, MAX_RETRIES, RETRY_DELAYS_MS]

theorem send_command_third_attempt_success_witness :
    (send_command thirdTrySucceedsOracle).result = .ok (.obj [("result", .bool true)]) ∧
    (send_command thirdTrySucceedsOracle).delays = [750, 1500] :=
  send_command_third_attempt_success thirdTrySucceedsOracle _ _ _ rfl rfl rfl

/-- C10: whenever `send_command` returns an error, that error is the one the
last attempt (index `MAX_RETRIES`) produced: the loop always records an
error before falling through, so the `unwrap_or(Error::NoAttribute)`
fallback is never the source of the returned error. -/
theorem send_command_never_fabricates_error
    (oracle : Nat → Except Error Json) (err : Error)
    (h : (send_command oracle).result = .error err) :
    oracle MAX_RETRIES = .error err := by
  rcases h0 : oracle 0 with e0 | r0 <;>
  rcases h1 : oracle 1 with e1 | r1 <;>
  rcases h2 : oracle 2 with e2 | r2 <;>
  rcases h3 : oracle 3 with e3 | r3 <;>
  simp only [send_command, sendGo, h0, h1, h2, h3, MAX_RETRIES, RETRY_DELAYS_MS] at h ⊢ <;>
  simp_all [sendGo]

theorem send_command_never_fabricates_error_witness :
    allFailOracle MAX_RETRIES = .error (.Socket "receive") :=
  send_command_never_fabricates_error allFailOracle _ rfl

/-! ## Push listener (`PushManager`, src/push.rs) -/

/-- An IPv4 address, kept as its textual form (the code only moves and
compares addresses and renders them with `to_string`). -/
abbrev Ipv4 := String

/-- A datagram source address (`std::net::SocketAddr`). -/
inductive Addr where
  | v4 (ip : Ipv4) (port : Nat)
  | v6

/-- An inbound UDP datagram.  `body = none` models a payload that is not
valid UTF-8 (`String::from_utf8` failing). -/
structure Datagram where
  body : Option String
  source : Addr

/-- Struct `discovery::DiscoveredBulb`. -/
structure DiscoveredBulb where
  ip : Ipv4
  mac : String

/-- A user callback invocation; callbacks themselves are opaque and are
identified by a number. -/
inductive PushEvent where
  | stateCb (cb : Nat) (mac : String) (params : Json)
  | discoveryCb (cb : Nat) (bulb : DiscoveredBulb)

/-- The mutable state of a `PushManager` (`src/push.rs:64-72`); the
`listener_task` handle carries no data we reason about.  Time stamps
(`Instant`) are natural numbers. -/
structure PushState where
  running : Bool
  subscriptions : List (String × Nat)
  discoveryCallback : Option Nat
  lastPush : Option Nat
  lastError : Option String
  registerMsg : Option Json

/-- Rust `str::to_uppercase` (identifiers here are ASCII hex strings). -/
def toUppercase (s : String) : String := ⟨s.data.map Char.toUpper⟩

/-- Constructor `PushManager::new`. -/
def PushManager.new : PushState :=
  ⟨false, [], none, none, none, none⟩

/-- Semantics of `HashMap::insert`: replace any existing binding for the key. -/
def mapInsert {α : Type} (l : List (String × α)) (k : String) (v : α) :
    List (String × α) :=
  (k, v) :: l.eraseP (fun p => p.1 == k)

/-- Method `PushManager::subscribe`: upsert under the uppercased identifier. -/
def PushManager.subscribe (st : PushState) (mac : String) (cb : Nat) : PushState :=
  { st with subscriptions := mapInsert st.subscriptions (toUppercase mac) cb }

/-- Method `PushManager::unsubscribe`. -/
def PushManager.unsubscribe (st : PushState) (mac : String) : PushState :=
  { st with subscriptions :=
      st.subscriptions.eraseP (fun p => p.1 == toUppercase mac) }

/-- Method `PushManager::set_discovery_callback`. -/
def PushManager.set_discovery_callback (st : PushState) (cb : Nat) : PushState :=
  { st with discoveryCallback := some cb }

/-- The registration message built by `PushManager::start`
(src/push.rs:159-166). -/
def registrationJson (localIp : Ipv4) (genMac : String) : Json :=
  .obj [("method", .str "registration"),
        ("params", .obj [("phoneIp", .str localIp),
                         ("register", .bool true),
                         ("phoneMac", .str genMac)])]

/-- Method `PushManager::start`: no-op success when already running; otherwise bind
(outcome `bindOk`), store the registration message, set the running flag.
`genMac` is the session identifier produced by `generate_mac()`. -/
def PushManager.start (st : PushState) (localIp : Ipv4) (bindOk : Bool)
    (genMac : String) : PushState × Except Error Unit :=
  if st.running then (st, .ok ())
  else if bindOk then
    ({ st with registerMsg := some (registrationJson localIp genMac),
               running := true }, .ok ())
  else (st, .error (.Socket "bind push socket"))

/-- Method `PushManager::stop`: clear the running flag (the join of the listener
task carries no state). -/
def PushManager.stop (st : PushState) : PushState :=
  { st with running := false }

/-- Method `PushManager::diagnostics`, at observation time `now`. -/
structure PushDiagnostics where
  running : Bool
  subscription_count : Nat
  time_since_last_push : Option Nat
  last_error : Option String

def PushManager.diagnostics (st : PushState) (now : Nat) : PushDiagnostics :=
  ⟨st.running, st.subscriptions.length,
   st.lastPush.map (fun t => now - t), st.lastError⟩

/-- Network outcomes `PushManager::register_bulb` can encounter after the
registration message is found: socket bind, and the timeout-wrapped
`send_to` (`none` models the 2s timeout elapsing). -/
structure RegisterEnv where
  bindResult : Except Error Unit
  encodeOk : Bool
  sendResult : Option (Except Error Unit)

/-- Method `PushManager::register_bulb` (src/push.rs:268-295): result of the call
and whether a send was ever attempted. -/
def PushManager.register_bulb (st : PushState) (env : RegisterEnv) :
    Except Error Unit × Bool :=
  match st.registerMsg with
  | none => (.error .NoAttribute, false)
  | some _ =>
    match env.bindResult with
    | .error e => (.error e, false)
    | .ok _ =>
      if env.encodeOk then
        match env.sendResult with
        | none => (.error (.Socket "send_to"), true)
        | some (.error _) => (.error (.Socket "send_to"), true)
        | some (.ok _) => (.ok (), true)
      else (.error .JsonDump, false)

/-- Lock acquisitions/releases and callback invocations of the background
receive loop, in program order. -/
inductive LockAction where
  | lockLastPush
  | unlockLastPush
  | lockSubs
  | unlockSubs
  | lockDisc
  | unlockDisc
  | invoke (e : PushEvent)

/-- The observable result of one receive-loop iteration that received a
datagram. -/
structure LoopStep where
  state : PushState
  events : List PushEvent
  actions : List LockAction

/-- One iteration of the receive loop on an inbound datagram
(src/push.rs:182-233): update `last_push`, discard invalid UTF-8, discard
the `"test"` sentinel before any JSON decoding, decode (`parse` models
`serde_json::from_str`), extract `method` and uppercased `params.mac`,
require an IPv4 source, dispatch `syncPilot` to the matching subscription
and `firstBeat` to the discovery callback — in both arms cloning the
callback and dropping the lock before invoking it. -/
def processDatagram (parse : String → Option Json) (st : PushState)
    (d : Datagram) (now : Nat) : LoopStep :=
  let st1 := { st with lastPush := some now }
  let base : List LockAction := [.lockLastPush, .unlockLastPush]
  match d.body with
  | none => ⟨st1, [], base⟩
  | some s =>
    if s = "test" then ⟨st1, [], base⟩
    else
      match parse s with
      | none => ⟨st1, [], base⟩
      | some msg =>
        let method := (msg.get "method").bind Json.asStr
        let mac := ((msg.get "params").bind (fun p => p.get "mac")).bind
          Json.asStr |>.map toUppercase
        match d.source with
        | .v6 => ⟨st1, [], base⟩
        | .v4 srcIp _ =>
          match method, mac with
          | some "syncPilot", some macAddr =>
            match st1.subscriptions.lookup macAddr with
            | some cb =>
              let params := (msg.get "params").getD .null
              ⟨st1, [.stateCb cb macAddr params],
                base ++ [.lockSubs, .unlockSubs, .invoke (.stateCb cb macAddr params)]⟩
            | none => ⟨st1, [], base ++ [.lockSubs, .unlockSubs]⟩
          | some "firstBeat", some macAddr =>
            match st1.discoveryCallback with
            | some cb =>
              ⟨st1, [.discoveryCb cb ⟨srcIp, macAddr⟩],
                base ++ [.lockDisc, .unlockDisc, .invoke (.discoveryCb cb ⟨srcIp, macAddr⟩)]⟩
            | none => ⟨st1, [], base ++ [.lockDisc, .unlockDisc]⟩
          | _, _ => ⟨st1, [], base⟩

/-- Returns `true` iff, scanning the action list with `n` locks currently held,
every callback invocation happens with zero locks held. -/
def noLockHeldAtInvoke : Nat → List LockAction → Bool
  | _, [] => true
  | n, .lockLastPush :: rest => noLockHeldAtInvoke (n + 1) rest
  | n, .unlockLastPush :: rest => noLockHeldAtInvoke (n - 1) rest
  | n, .lockSubs :: rest => noLockHeldAtInvoke (n + 1) rest
  | n, .unlockSubs :: rest => noLockHeldAtInvoke (n - 1) rest
  | n, .lockDisc :: rest => noLockHeldAtInvoke (n + 1) rest
  | n, .unlockDisc :: rest => noLockHeldAtInvoke (n - 1) rest
  | n, .invoke _ :: rest => n == 0 && noLockHeldAtInvoke n rest

/-- Every branch of a datagram iteration leaves the manager state unchanged
except for the `last_push` timestamp. -/
theorem processDatagram_state (parse : String → Option Json) (st : PushState)
    (d : Datagram) (now : Nat) :
    (processDatagram parse st d now).state = { st with lastPush := some now } := by
  rcases d with ⟨body, src⟩
  unfold processDatagram
  rcases body with _ | s
  · rfl
  · dsimp only
    split
    · rfl
    · rcases parse s with _ | msg
      · rfl
      · dsimp only
        rcases src with ⟨ip, port⟩ | _
        · dsimp only
          split
          · split <;> rfl
          · split <;> rfl
          · rfl
        · rfl

/-- C9: in every receive-loop iteration, both for `syncPilot` and
`firstBeat` dispatch, no lock is held at the moment a user callback is
invoked: the callback handle is cloned out and the lock released first. -/
theorem receive_loop_no_lock_held_during_callback
    (parse : String → Option Json) (st : PushState) (d : Datagram) (now : Nat) :
    noLockHeldAtInvoke 0 (processDatagram parse st d now).actions = true := by
  rcases d with ⟨body, src⟩
  unfold processDatagram
  rcases body with _ | s
  · rfl
  · dsimp only
    split
    · rfl
    · rcases parse s with _ | msg
      · rfl
      · dsimp only
        rcases src with ⟨ip, port⟩ | _
        · dsimp only
          split
          · split <;> rfl
          · split <;> rfl
          · rfl
        · rfl

/-- C6: a datagram whose body is the literal `"test"` sentinel is handled
independently of the JSON decoder (decoding is never attempted), triggers
no callback, yet still updates the last-push timestamp, so
`diagnostics().time_since_last_push` reflects it. -/
theorem test_sentinel_no_decode_no_callback_updates_push_time
    (parse parse2 : String → Option Json) (st : PushState) (src : Addr)
    (now obsNow : Nat) :
    processDatagram parse st ⟨some "test", src⟩ now
        = processDatagram parse2 st ⟨some "test", src⟩ now ∧
    (processDatagram parse st ⟨some "test", src⟩ now).events = [] ∧
    (PushManager.diagnostics
        (processDatagram parse st ⟨some "test", src⟩ now).state
        obsNow).time_since_last_push = some (obsNow - now) := by
  refine ⟨rfl, rfl, ?_⟩
  simp [processDatagram, PushManager.diagnostics]

/-- C2: a `syncPilot` datagram carrying `params.mac = m` invokes the
callback subscribed under `key` exactly once — with the uppercased
identifier and the message's `params` object — whenever `uppercase m`
equals the stored key `uppercase key`; and any callback invocation of the
iteration is for a subscription registered under exactly the message's
normalized identifier, never one whose key differs. -/
theorem syncPilot_dispatch_matches_subscription
    (parse : String → Option Json) (st stAny : PushState) (key m s : String)
    (cb : Nat) (msg : Json) (ip : Ipv4) (port now : Nat)
    (hs : s ≠ "test")
    (hparse : parse s = some msg)
    (hmethod : msg.get "method" = some (.str "syncPilot"))
    (hmac : (msg.get "params").bind (fun p => p.get "mac") = some (.str m)) :
    (toUppercase m = toUppercase key →
      (processDatagram parse (PushManager.subscribe st key cb)
          ⟨some s, .v4 ip port⟩ now).events
        = [.stateCb cb (toUppercase m) ((msg.get "params").getD .null)]) ∧
    (∀ cb' mac' p, PushEvent.stateCb cb' mac' p ∈
        (processDatagram parse stAny ⟨some s, .v4 ip port⟩ now).events →
      mac' = toUppercase m ∧ stAny.subscriptions.lookup mac' = some cb') := by
  constructor
  · intro heq
    simp [processDatagram, hs, hparse, hmethod, hmac, Json.asStr,
      PushManager.subscribe, mapInsert, List.lookup, heq]
  · intro cb' mac' p hmem
    rcases hl : stAny.subscriptions.lookup (toUppercase m) with _ | cb0
    · simp [processDatagram, hs, hparse, hmethod, hmac, Json.asStr, hl] at hmem
    · simp [processDatagram, hs, hparse, hmethod, hmac, Json.asStr, hl] at hmem
      obtain ⟨hcb, hmac', hp⟩ := hmem
      subst hcb hmac'
      exact ⟨rfl, hl⟩

/-- A `syncPilot` message with a lowercase sender identifier. -/
def demoSyncMsg : Json :=
  .obj [("method", .str "syncPilot"),
        ("params", .obj [("mac", .str "aabbccddeeff")])]

/-- A decoder recognising exactly the demo datagram body. -/
def demoParse : String → Option Json :=
  fun x => if x = "sync-datagram" then some demoSyncMsg else none

theorem syncPilot_dispatch_matches_subscription_witness :
    (processDatagram demoParse
        (PushManager.subscribe PushManager.new "AABBCCDDEEFF" 7)
        ⟨some "sync-datagram", .v4 "192.168.1.9" 38900⟩ 0).events
      = [.stateCb 7 "AABBCCDDEEFF" (.obj [("mac", .str "aabbccddeeff")])] :=
  (syncPilot_dispatch_matches_subscription demoParse PushManager.new
      PushManager.new "AABBCCDDEEFF" "aabbccddeeff" "sync-datagram" 7
      demoSyncMsg "192.168.1.9" 38900 0
      (by decide) rfl rfl rfl).1 (by decide)

/-- C7: calling `register_bulb` while no registration message is stored
(which is the case iff `start` has never succeeded) fails with the
`NoAttribute` error and attempts no send. -/
theorem register_bulb_before_start_fails
    (st : PushState) (env : RegisterEnv) (h : st.registerMsg = none) :
    PushManager.register_bulb st env = (.error .NoAttribute, false) := by
  simp [PushManager.register_bulb, h]

theorem register_bulb_before_start_fails_witness :
    PushManager.register_bulb PushManager.new ⟨.ok (), true, some (.ok ())⟩
      = (.error .NoAttribute, false) :=
  register_bulb_before_start_fails PushManager.new ⟨.ok (), true, some (.ok ())⟩ rfl

/-- Every operation of the `PushManager` API, together with the inputs its
behaviour depends on, plus the three receive-loop iteration outcomes. -/
inductive Op where
  | subscribe (mac : String) (cb : Nat)
  | unsubscribe (mac : String)
  | setDiscoveryCallback (cb : Nat)
  | start (localIp : Ipv4) (bindOk : Bool) (genMac : String)
  | stop
  | registerBulb (env : RegisterEnv)
  | recv (parse : String → Option Json) (d : Datagram) (now : Nat)
  | recvError (msg : String)
  | recvTimeout

def Op.isStart : Op → Bool
  | .start _ _ _ => true
  | _ => false

/-- State transition of one operation (`register_bulb` reads but never
mutates manager state; a receive error only records `last_error`; a
receive timeout does nothing). -/
def applyOp (st : PushState) : Op → PushState
  | .subscribe mac cb => PushManager.subscribe st mac cb
  | .unsubscribe mac => PushManager.unsubscribe st mac
  | .setDiscoveryCallback cb => PushManager.set_discovery_callback st cb
  | .start ip bindOk g => (PushManager.start st ip bindOk g).1
  | .stop => PushManager.stop st
  | .registerBulb _ => st
  | .recv parse d now => (processDatagram parse st d now).state
  | .recvError m => { st with lastError := some m }
  | .recvTimeout => st

/-- C8: the registration message is `none` at construction; a successful
`start` from the stopped state sets it; no operation other than `start`
ever changes it; and once set it stays set under every operation. -/
theorem registration_message_lifecycle :
    PushManager.new.registerMsg = none ∧
    (∀ st : PushState, ∀ ip g, st.running = false →
      (PushManager.start st ip true g).1.registerMsg
        = some (registrationJson ip g)) ∧
    (∀ st op, Op.isStart op = false →
      (applyOp st op).registerMsg = st.registerMsg) ∧
    (∀ st op, (st.registerMsg).isSome = true →
      ((applyOp st op).registerMsg).isSome = true) := by
  refine ⟨rfl, ?_, ?_, ?_⟩
  · intro st ip g h
    simp [PushManager.start, h]
  · intro st op h
    cases op <;>
      simp_all [applyOp, PushManager.subscribe, PushManager.unsubscribe,
        PushManager.set_discovery_callback, PushManager.stop, Op.isStart,
        processDatagram_state]
  · intro st op h
    cases op <;>
      simp_all [applyOp, PushManager.subscribe, PushManager.unsubscribe,
        PushManager.set_discovery_callback, PushManager.stop,
        processDatagram_state, PushManager.start]
    case start ip bindOk g =>
      split <;> simp_all
      split <;> simp_all

/-- A manager state right after one successful `start`. -/
def startedState : PushState :=
  (PushManager.start PushManager.new "10.0.0.2" true "A1B2C3D4E5F6").1

theorem registration_message_lifecycle_witness :
    PushManager.new.registerMsg = none ∧
    (PushManager.start PushManager.new "10.0.0.2" true "A1B2C3D4E5F6").1.registerMsg
      = some (registrationJson "10.0.0.2" "A1B2C3D4E5F6") ∧
    (applyOp PushManager.new (.subscribe "aabbccddeeff" 1)).registerMsg
      = PushManager.new.registerMsg ∧
    ((applyOp startedState .stop).registerMsg).isSome = true :=
  ⟨registration_message_lifecycle.1,
   registration_message_lifecycle.2.1 PushManager.new "10.0.0.2" "A1B2C3D4E5F6" rfl,
   registration_message_lifecycle.2.2.1 PushManager.new (.subscribe "aabbccddeeff" 1) rfl,
   registration_message_lifecycle.2.2.2 startedState .stop rfl⟩

/-! ## Discovery scanner (`discover_bulbs`, src/discovery.rs) -/

/-- One iteration's input to the discovery receive loop: a datagram with its
source address, or a receive error / 500ms sub-timeout (both of which the
loop skips). -/
inductive RecvOutcome where
  | datagram (body : Option String) (source : Addr)
  | failOrTimeout

/-- Function `extract_mac` (src/discovery.rs:114-119): the nested `result.mac`
string. -/
def extract_mac (json : Json) : Option String :=
  ((json.get "result").bind (fun r => r.get "mac")).bind Json.asStr

/-- The body of the discovery collection loop (src/discovery.rs:91-109):
skip invalid UTF-8, undecodable JSON, replies without `result.mac` and
non-IPv4 sources; otherwise insert into the map keyed by the identifier. -/
def discoverStep (parse : String → Option Json)
    (acc : List (String × Ipv4)) : RecvOutcome → List (String × Ipv4)
  | .failOrTimeout => acc
  | .datagram body src =>
    match body with
    | none => acc
    | some s =>
      match parse s with
      | none => acc
      | some j =>
        match extract_mac j with
        | none => acc
        | some mac =>
          match src with
          | .v6 => acc
          | .v4 ip _ => mapInsert acc mac ip

/-- The whole collection loop, over the sequence of receive outcomes
observed before the overall timeout elapsed. -/
def discoverLoop (parse : String → Option Json)
    (items : List RecvOutcome) : List (String × Ipv4) :=
  items.foldl (discoverStep parse) []

/-- Socket-setup outcomes of `discover_bulbs` before the loop. -/
structure DiscoverEnv where
  bindResult : Except Error Unit
  setBroadcastResult : Except Error Unit
  sendResult : Except Error Unit

/-- Function `discover_bulbs` (src/discovery.rs:61-112): bind, enable broadcast,
send the probe, then collect until the timeout elapses and return `Ok` of
whatever was collected. -/
def discover_bulbs (env : DiscoverEnv) (parse : String → Option Json)
    (items : List RecvOutcome) : Except Error (List (String × Ipv4)) :=
  match env.bindResult with
  | .error e => .error e
  | .ok _ =>
    match env.setBroadcastResult with
    | .error e => .error e
    | .ok _ =>
      match env.sendResult with
      | .error e => .error e
      | .ok _ => .ok (discoverLoop parse items)

/-- The identifier/source pair a receive outcome contributes, if any. -/
def datagramMac (parse : String → Option Json) :
    RecvOutcome → Option (String × Ipv4)
  | .failOrTimeout => none
  | .datagram body src =>
    match body with
    | none => none
    | some s =>
      match parse s with
      | none => none
      | some j =>
        match extract_mac j with
        | none => none
        | some mac =>
          match src with
          | .v6 => none
          | .v4 ip _ => some (mac, ip)

theorem discoverStep_eq (parse : String → Option Json)
    (acc : List (String × Ipv4)) (i : RecvOutcome) :
    discoverStep parse acc i
      = match datagramMac parse i with
        | none => acc
        | some (mac, ip) => mapInsert acc mac ip := by
  rcases i with ⟨body, src⟩ | _
  · unfold discoverStep datagramMac
    rcases body with _ | s
    · rfl
    · dsimp only
      rcases parse s with _ | j
      · rfl
      · dsimp only
        rcases extract_mac j with _ | mac
        · rfl
        · rcases src with ⟨ip, port⟩ | _ <;> rfl
  · rfl

/-- The source address of the last valid datagram carrying identifier `k`. -/
def lastSourceFor (parse : String → Option Json) (k : String) :
    List RecvOutcome → Option Ipv4
  | [] => none
  | i :: rest =>
    match lastSourceFor parse k rest with
    | some ip => some ip
    | none =>
      match datagramMac parse i with
      | some (mac, ip) => if mac == k then some ip else none
      | none => none

theorem lookup_eraseP_ne {α : Type} (k mac : String) (h : k ≠ mac) :
    ∀ l : List (String × α),
      List.lookup k (l.eraseP (fun p => p.1 == mac)) = List.lookup k l
  | [] => rfl
  | (a, v) :: t => by
    by_cases ha : a = mac
    · subst ha
      simp [List.eraseP_cons, List.lookup, beq_false_of_ne h]
    · by_cases hk : k = a
      · subst hk
        simp [List.eraseP_cons, beq_false_of_ne ha, List.lookup]
      · simp [List.eraseP_cons, beq_false_of_ne ha, List.lookup,
          beq_false_of_ne hk, lookup_eraseP_ne k mac h t]

theorem lookup_mapInsert {α : Type} (l : List (String × α)) (k mac : String)
    (v : α) :
    List.lookup k (mapInsert l mac v)
      = if k = mac then some v else List.lookup k l := by
  by_cases hk : k = mac
  · subst hk
    simp [mapInsert, List.lookup]
  · simp [mapInsert, List.lookup, beq_false_of_ne hk, hk,
      lookup_eraseP_ne k mac hk l]

theorem notMem_keys_eraseP {α : Type} (mac : String) :
    ∀ l : List (String × α), (l.map Prod.fst).Nodup →
      mac ∉ (l.eraseP (fun p => p.1 == mac)).map Prod.fst
  | [], _ => by simp
  | (a, v) :: t, h => by
    simp only [List.map_cons, List.nodup_cons] at h
    by_cases ha : a = mac
    · subst ha
      rw [List.eraseP_cons]
      simp only [beq_self_eq_true, cond_true]
      exact fun hmem => h.1 hmem
    · rw [List.eraseP_cons]
      simp only [beq_false_of_ne ha, cond_false, List.map_cons, List.mem_cons,
        not_or]
      exact ⟨fun hq => ha hq.symm, notMem_keys_eraseP mac t h.2⟩

theorem keys_mapInsert_nodup {α : Type} (l : List (String × α))
    (mac : String) (v : α) (h : (l.map Prod.fst).Nodup) :
    ((mapInsert l mac v).map Prod.fst).Nodup := by
  simp only [mapInsert, List.map_cons, List.nodup_cons]
  refine ⟨notMem_keys_eraseP mac l h, ?_⟩
  exact h.sublist ((List.eraseP_sublist l).map Prod.fst)

theorem discoverFold_lookup (parse : String → Option Json) (k : String) :
    ∀ (items : List RecvOutcome) (acc : List (String × Ipv4)),
      List.lookup k (items.foldl (discoverStep parse) acc)
        = match lastSourceFor parse k items with
          | some ip => some ip
          | none => List.lookup k acc
  | [], acc => by simp [lastSourceFor]
  | i :: rest, acc => by
    rw [List.foldl_cons, discoverFold_lookup parse k rest]
    simp only [lastSourceFor]
    rcases hr : lastSourceFor parse k rest with _ | ip'
    · rcases hd : datagramMac parse i with _ | ⟨mac, ip⟩
      · rw [discoverStep_eq, hd]
      · rw [discoverStep_eq, hd, lookup_mapInsert]
        by_cases hk : k = mac
        · subst hk
          simp
        · simp [beq_false_of_ne (fun hq => hk hq.symm), hk]
    · simp

theorem discoverFold_keys_nodup (parse : String → Option Json) :
    ∀ (items : List RecvOutcome) (acc : List (String × Ipv4)),
      (acc.map Prod.fst).Nodup →
      ((items.foldl (discoverStep parse) acc).map Prod.fst).Nodup
  | [], _, h => h
  | i :: rest, acc, h => by
    rw [List.foldl_cons]
    apply discoverFold_keys_nodup parse rest
    rw [discoverStep_eq]
    rcases hd : datagramMac parse i with _ | ⟨mac, ip⟩
    · exact h
    · exact keys_mapInsert_nodup acc mac ip h

theorem discoverFold_no_valid (parse : String → Option Json) :
    ∀ (items : List RecvOutcome), (∀ i ∈ items, datagramMac parse i = none) →
      ∀ acc, items.foldl (discoverStep parse) acc = acc
  | [], _, _ => rfl
  | i :: rest, h, acc => by
    rw [List.foldl_cons, discoverStep_eq, h i (by simp)]
    exact discoverFold_no_valid parse rest (fun j hj => h j (by simp [hj])) acc

/-- C5: the discovery result has no duplicate identifiers; the entry for an
identifier carries the source address of the last valid datagram that
declared it (last-writer-wins, whatever the source ports were); and when
socket setup succeeds but zero valid responses arrive before the timeout,
`discover_bulbs` returns `Ok` of the empty collection, not an error. -/
theorem discovery_dedup_last_writer_and_empty_ok
    (parse : String → Option Json) (items : List RecvOutcome) (k : String) :
    ((discoverLoop parse items).map Prod.fst).Nodup ∧
    List.lookup k (discoverLoop parse items) = lastSourceFor parse k items ∧
    ((∀ i ∈ items, datagramMac parse i = none) →
      discover_bulbs ⟨.ok (), .ok (), .ok ()⟩ parse items = .ok []) := by
  refine ⟨discoverFold_keys_nodup parse items [] (by simp), ?_, ?_⟩
  · rw [discoverLoop, discoverFold_lookup]
    rcases lastSourceFor parse k items with _ | ip <;> simp
  · intro hno
    simp [discover_bulbs, discoverLoop, discoverFold_no_valid parse items hno]

/-- A discovery reply carrying `result.mac`. -/
def discoReply : Json := .obj [("result", .obj [("mac", .str "AA11BB22CC33")])]

def discoParse : String → Option Json :=
  fun x => if x = "reply" then some discoReply else none

/-- Two replies with the same identifier from different source addresses
and ports, separated by a sub-timeout. -/
def discoItems : List RecvOutcome :=
  [.datagram (some "reply") (.v4 "10.0.0.5" 41234),
   .failOrTimeout,
   .datagram (some "reply") (.v4 "10.0.0.6" 51234)]

theorem discovery_dedup_last_writer_and_empty_ok_witness :
    List.lookup "AA11BB22CC33" (discoverLoop discoParse discoItems)
      = some "10.0.0.6" ∧
    discover_bulbs ⟨.ok (), .ok (), .ok ()⟩ discoParse [.failOrTimeout]
      = .ok [] :=
  ⟨((discovery_dedup_last_writer_and_empty_ok discoParse discoItems
      "AA11BB22CC33").2.1).trans (by decide),
   (discovery_dedup_last_writer_and_empty_ok discoParse [.failOrTimeout]
      "AA11BB22CC33").2.2
     (by intro i hi; simp only [List.mem_singleton] at hi; subst hi; rfl)⟩

end Wiz
